import Mathlib

/-!
Verification of the task-tracker core in `Task_Management_App/main.py`:
the `Task` pydantic model and the `TaskManager` in-memory store.

Embedding choices:
* A calendar `date` is modelled as a `Nat` (an ordinal day number); the
  comparison operators on dates coincide with `Nat` order.
* A Python string is a Lean `String`; `str.strip()` (with no argument it
  removes surrounding whitespace) is `pyStrip`, dropping whitespace
  characters from both ends of the character list.
* A `uuid4` identifier is an opaque `String` supplied by the caller.
* `TaskManager.tasks`, a Python `dict` (insertion-ordered, unique keys), is
  an association list `List (String × Task)`; assignment to an existing key
  replaces the value in place, assignment to a fresh key appends, `del`
  removes the entry, `in` tests key membership.
* Methods that mutate `self` become functions from the store to the new
  store, paired with their Boolean return value.
-/

namespace TaskApp

/-- One task, mirroring the fields of the pydantic `Task` model:
`id : str`, `title : str`, `description : Optional[str]`,
`due_date : date`, `priority : int`, `completed : bool`. -/
structure Task where
  id : String
  title : String
  description : Option String
  due_date : Nat
  priority : Int
  completed : Bool
deriving DecidableEq, Repr

/-- The validation failures pydantic can raise while constructing a `Task`,
one per declared field constraint: `title` has `min_length=1`, `priority`
has `ge=1` and `le=5`.  (No constraint is declared on `due_date`.) -/
inductive ValidationError where
  | titleTooShort
  | priorityBelowOne
  | priorityAboveFive
deriving DecidableEq, Repr

/-- Does this validation error identify the priority-range rule? -/
def ValidationError.isPriorityError : ValidationError → Bool
  | .titleTooShort => false
  | .priorityBelowOne => true
  | .priorityAboveFive => true

/-- Constructing a `Task(id=…, title=…, description=…, due_date=…,
priority=…, completed=…)`: pydantic checks exactly the `Field` constraints
declared on the model — `min_length=1` on `title`, `ge=1` and `le=5` on
`priority` — collecting every failed constraint into one `ValidationError`.
The methods `due_date_must_not_in_past` and `title_must_not_empty` are plain
`@classmethod`s, not registered as pydantic validators, so construction
never calls them: no due-date check and no trimming happens here. -/
def Task.validate (id : String) (title : String) (description : Option String)
    (due_date : Nat) (priority : Int) (completed : Bool) :
    Except (List ValidationError) Task :=
  let errs : List ValidationError :=
    (if title.length < 1 then [.titleTooShort] else []) ++
    (if priority < 1 then [.priorityBelowOne] else []) ++
    (if 5 < priority then [.priorityAboveFive] else [])
  if errs.isEmpty then
    .ok ⟨id, title, description, due_date, priority, completed⟩
  else
    .error errs

/-- The classmethod `Task.due_date_must_not_in_past(v)`: raises
`ValueError('Due date must not be in the past')` when `v < date.today()`,
otherwise returns `v`.  `today` is passed explicitly.  Defined in the
source but never registered as a validator, so `Task.validate` ignores it. -/
def due_date_must_not_in_past (today v : Nat) : Except String Nat :=
  if v < today then .error "Due date must not be in the past" else .ok v

/-- Python `v.strip()`: `v` with whitespace removed from both ends. -/
def pyStrip (v : String) : String :=
  ⟨((v.data.dropWhile Char.isWhitespace).reverse.dropWhile
      Char.isWhitespace).reverse⟩

/-- The classmethod `Task.title_must_not_empty(v)`: raises
`ValueError('Title must not be empty or whitespace')` when `not v or not
v.strip()`, otherwise returns `v.strip()`.  Defined in the source but never
registered as a validator, so `Task.validate` ignores it. -/
def title_must_not_empty (v : String) : Except String String :=
  if v.isEmpty || (pyStrip v).isEmpty then
    .error "Title must not be empty or whitespace"
  else
    .ok (pyStrip v)

/-- The state of a `TaskManager`: its `tasks` dict as an association list. -/
abbrev Store : Type := List (String × Task)

/-- Dict indexing `tasks[k]` as an `Option`: the value at the first entry
whose key is `k`, if any. -/
def lookupTask : List (String × Task) → String → Option Task
  | [], _ => none
  | (k2, t) :: rest, k => if k2 = k then some t else lookupTask rest k

/-- Python `task_id in self.tasks`: key membership in the dict. -/
def hasKey (m : List (String × Task)) (k : String) : Bool :=
  (lookupTask m k).isSome

/-- Dict assignment `tasks[k] = t`: replace the value at an existing key in
place, or append a new entry at the end. -/
def setKey : List (String × Task) → String → Task → List (String × Task)
  | [], k, t => [(k, t)]
  | (k2, t2) :: rest, k, t =>
      if k2 = k then (k2, t) :: rest else (k2, t2) :: setKey rest k t

/-- Dict deletion `del tasks[k]`: drop the entry with key `k`. -/
def eraseKey : List (String × Task) → String → List (String × Task)
  | [], _ => []
  | (k2, t) :: rest, k =>
      if k2 = k then eraseKey rest k else (k2, t) :: eraseKey rest k

/-- The effect of `tasks[k].completed = True`: the entry at key `k` gets
its `completed` field set, every other entry is untouched. -/
def markKey : List (String × Task) → String → List (String × Task)
  | [], _ => []
  | (k2, t) :: rest, k =>
      if k2 = k then (k2, { t with completed := true }) :: markKey rest k
      else (k2, t) :: markKey rest k

/-- `TaskManager.add_task(task)`: `self.tasks[task.id] = task`. -/
def add_task (m : Store) (t : Task) : Store :=
  setKey m t.id t

/-- `TaskManager.update_task(task_id, updated_task)`: if `task_id` is a key,
set `updated_task.id = task_id`, store it under `task_id` and return `True`;
otherwise return `False`. -/
def update_task (m : Store) (task_id : String) (updated_task : Task) :
    Bool × Store :=
  if hasKey m task_id then
    (true, setKey m task_id { updated_task with id := task_id })
  else
    (false, m)

/-- `TaskManager.delete_task(task_id)`: if `task_id` is a key, delete the
entry and return `True`; otherwise return `False`. -/
def delete_task (m : Store) (task_id : String) : Bool × Store :=
  if hasKey m task_id then (true, eraseKey m task_id) else (false, m)

/-- `TaskManager.mark_task_complete(task_id)`: if `task_id` is a key, set
`self.tasks[task_id].completed = True` and return `True`; otherwise return
`False`. -/
def mark_task_complete (m : Store) (task_id : String) : Bool × Store :=
  if hasKey m task_id then (true, markKey m task_id) else (false, m)

/-- Ascending order of due dates, the key order used by `get_all_tasks`. -/
def dueLe (a b : Task) : Prop :=
  a.due_date ≤ b.due_date

instance : DecidableRel dueLe := fun a b => Nat.decLe a.due_date b.due_date

instance : IsTotal Task dueLe :=
  ⟨fun a b => Nat.le_total a.due_date b.due_date⟩

instance : IsTrans Task dueLe :=
  ⟨fun _ _ _ => Nat.le_trans⟩

/-- `TaskManager.get_all_tasks()`:
`sorted(self.tasks.values(), key=lambda x: x.due_date)`.  `dict.values()`
iterates in insertion order and Python's `sorted` is a stable sort by the
key; a stable sort is modelled by insertion sort on the value list. -/
def get_all_tasks (m : Store) : List Task :=
  List.insertionSort dueLe (m.map Prod.snd)

/-- Sample tasks used as concrete witnesses below. -/
def taskJan : Task :=
  ⟨"a", "january", none, 20240101, 1, false⟩

def taskFeb : Task :=
  ⟨"b", "february", some "desc", 20240210, 3, false⟩

def taskMar : Task :=
  ⟨"c", "march", none, 20240305, 5, true⟩

/-! Lemmas about dict indexing after each mutating operation. -/

theorem lookupTask_setKey_self (m : List (String × Task)) (k : String)
    (t : Task) : lookupTask (setKey m k t) k = some t := by
  induction m with
  | nil => simp [setKey, lookupTask]
  | cons p rest ih =>
    obtain ⟨k2, t2⟩ := p
    by_cases h : k2 = k
    · simp [setKey, h, lookupTask]
    · simp [setKey, h, lookupTask, ih]

theorem lookupTask_setKey_ne (m : List (String × Task)) (k k2 : String)
    (t : Task) (h : k2 ≠ k) :
    lookupTask (setKey m k t) k2 = lookupTask m k2 := by
  induction m with
  | nil => simp [setKey, lookupTask, Ne.symm h]
  | cons p rest ih =>
    obtain ⟨k3, t3⟩ := p
    by_cases h3 : k3 = k
    · subst h3
      simp [setKey, lookupTask, Ne.symm h]
    · simp [setKey, h3, lookupTask, ih]

theorem lookupTask_eraseKey_self (m : List (String × Task)) (k : String) :
    lookupTask (eraseKey m k) k = none := by
  induction m with
  | nil => simp [eraseKey, lookupTask]
  | cons p rest ih =>
    obtain ⟨k2, t2⟩ := p
    by_cases h : k2 = k
    · simp [eraseKey, h, ih]
    · simp [eraseKey, h, lookupTask, ih]

theorem lookupTask_eraseKey_ne (m : List (String × Task)) (k k2 : String)
    (h : k2 ≠ k) : lookupTask (eraseKey m k) k2 = lookupTask m k2 := by
  induction m with
  | nil => simp [eraseKey]
  | cons p rest ih =>
    obtain ⟨k3, t3⟩ := p
    by_cases h3 : k3 = k
    · subst h3
      simp [eraseKey, lookupTask, Ne.symm h, ih]
    · simp [eraseKey, h3, lookupTask, ih]

theorem lookupTask_markKey_self (m : List (String × Task)) (k : String) :
    lookupTask (markKey m k) k =
      (lookupTask m k).map (fun t => { t with completed := true }) := by
  induction m with
  | nil => simp [markKey, lookupTask]
  | cons p rest ih =>
    obtain ⟨k2, t2⟩ := p
    by_cases h : k2 = k
    · simp [markKey, h, lookupTask]
    · simp [markKey, h, lookupTask, ih]

theorem lookupTask_markKey_ne (m : List (String × Task)) (k k2 : String)
    (h : k2 ≠ k) : lookupTask (markKey m k) k2 = lookupTask m k2 := by
  induction m with
  | nil => simp [markKey]
  | cons p rest ih =>
    obtain ⟨k3, t3⟩ := p
    by_cases h3 : k3 = k
    · subst h3
      simp [markKey, lookupTask, Ne.symm h, ih]
    · simp [markKey, h3, lookupTask, ih]

theorem markKey_markKey (m : List (String × Task)) (k : String) :
    markKey (markKey m k) k = markKey m k := by
  induction m with
  | nil => simp [markKey]
  | cons p rest ih =>
    obtain ⟨k2, t2⟩ := p
    by_cases h : k2 = k
    · simp [markKey, h, ih]
    · simp [markKey, h, ih]

theorem hasKey_markKey_self (m : List (String × Task)) (k : String) :
    hasKey (markKey m k) k = hasKey m k := by
  simp [hasKey, lookupTask_markKey_self]

/-! The claims. -/

/-- C1: the spec says constructing a `Task` with the all-whitespace title
`"   "` fails with the empty-title `ValidationError`, and the code's own
classmethod `title_must_not_empty` would indeed reject it — but that method
is never registered as a pydantic validator, so construction only checks
`min_length=1`, which `"   "` (length 3) satisfies: a `Task` value with the
all-whitespace title is produced. -/
theorem whitespace_title_accepted :
    Task.validate "x" "   " none 20240101 3 false =
      Except.ok ⟨"x", "   ", none, 20240101, 3, false⟩ ∧
    title_must_not_empty "   " =
      Except.error "Title must not be empty or whitespace" :=
  ⟨rfl, rfl⟩

/-- C2: the spec says constructing a `Task` whose `due_date` is one day
before today fails with the past-date `ValidationError`, and the code's own
classmethod `due_date_must_not_in_past` would indeed reject it — but that
method is never registered as a pydantic validator, so construction performs
no date check at all (with today = 100, due date 99 is accepted). -/
theorem past_due_date_accepted :
    Task.validate "x" "task" none 99 3 false =
      Except.ok ⟨"x", "task", none, 99, 3, false⟩ ∧
    due_date_must_not_in_past 100 99 =
      Except.error "Due date must not be in the past" :=
  ⟨rfl, rfl⟩

/-- C3: the spec says a valid construction stores the title trimmed of
surrounding whitespace, but the trimming lives in the unregistered
classmethod `title_must_not_empty`, which construction never calls: the
title `"  a  "` is valid (length ≥ 1) yet is stored verbatim, not as its
trimmed form `"a"`. -/
theorem title_stored_untrimmed :
    Task.validate "x" "  a  " none 20240101 3 false =
      Except.ok ⟨"x", "  a  ", none, 20240101, 3, false⟩ ∧
    pyStrip "  a  " = "a" :=
  ⟨rfl, rfl⟩

/-- C4: when `id` is a key of the store, `update_task id new_task` returns
success, stores `new_task` with its `id` field forced to `id` (so the
stored id is unchanged even when `new_task.id` differed), and leaves every
other key's entry untouched. -/
theorem update_task_existing_id (m : Store) (id : String) (t : Task)
    (h : hasKey m id = true) :
    (update_task m id t).1 = true ∧
    lookupTask (update_task m id t).2 id = some { t with id := id } ∧
    (∀ k, k ≠ id → lookupTask (update_task m id t).2 k = lookupTask m k) := by
  refine ⟨by simp [update_task, h], ?_, ?_⟩
  · simp [update_task, h, lookupTask_setKey_self]
  · intro k hk
    simp [update_task, h, lookupTask_setKey_ne m id k _ hk]

theorem update_task_existing_id_witness :
    (update_task [("a", taskJan)] "a" taskFeb).1 = true ∧
    lookupTask (update_task [("a", taskJan)] "a" taskFeb).2 "a" =
      some { taskFeb with id := "a" } :=
  ⟨(update_task_existing_id [("a", taskJan)] "a" taskFeb (by decide)).1,
   (update_task_existing_id [("a", taskJan)] "a" taskFeb (by decide)).2.1⟩

/-- C5: `get_all_tasks` returns exactly the stored tasks (a permutation of
the dict's value sequence), sorted in ascending order of `due_date`; being
a pure function of the store it is stable across repeated calls and cannot
mutate the store.  On the concrete store holding due dates
[2024-03-05, 2024-01-01, 2024-02-10] it returns the January, February and
March tasks in that order. -/
theorem get_all_tasks_sorted_spec :
    (∀ m : Store,
      List.Perm (get_all_tasks m) (m.map Prod.snd) ∧
      List.Sorted dueLe (get_all_tasks m)) ∧
    get_all_tasks [("c", taskMar), ("a", taskJan), ("b", taskFeb)] =
      [taskJan, taskFeb, taskMar] := by
  refine ⟨fun m => ⟨List.perm_insertionSort dueLe _,
    List.sorted_insertionSort dueLe _⟩, by decide⟩

/-- C6: when `id` is not a key of the store, `update_task` returns the
failure flag `false` and the store is exactly unchanged (and no exception
is modelled: the function is total). -/
theorem update_task_missing_id (m : Store) (id : String) (t : Task)
    (h : hasKey m id = false) :
    update_task m id t = (false, m) := by
  simp [update_task, h]

theorem update_task_missing_id_witness :
    update_task [] "zz" taskJan = (false, []) :=
  update_task_missing_id [] "zz" taskJan (by decide)

/-- C7: when `id` is a key, `mark_task_complete` returns `true` and sets the
stored entry's `completed` field to `true`; it is idempotent: a second
immediate call also returns `true` and leaves the store exactly as it was
after the first call (so `completed` remains `true`). -/
theorem mark_task_complete_idempotent (m : Store) (id : String)
    (h : hasKey m id = true) :
    (mark_task_complete m id).1 = true ∧
    (∀ t, lookupTask m id = some t →
      lookupTask (mark_task_complete m id).2 id =
        some { t with completed := true }) ∧
    mark_task_complete (mark_task_complete m id).2 id =
      (true, (mark_task_complete m id).2) := by
  have hm : (mark_task_complete m id).2 = markKey m id := by
    simp [mark_task_complete, h]
  refine ⟨by simp [mark_task_complete, h], ?_, ?_⟩
  · intro t ht
    rw [hm, lookupTask_markKey_self, ht]
    rfl
  · rw [hm]
    simp [mark_task_complete, hasKey_markKey_self, h, markKey_markKey]

theorem mark_task_complete_idempotent_witness :
    (mark_task_complete [("a", taskJan)] "a").1 = true ∧
    mark_task_complete (mark_task_complete [("a", taskJan)] "a").2 "a" =
      (true, (mark_task_complete [("a", taskJan)] "a").2) :=
  ⟨(mark_task_complete_idempotent [("a", taskJan)] "a" (by decide)).1,
   (mark_task_complete_idempotent [("a", taskJan)] "a" (by decide)).2.2⟩

/-- C8: `delete_task` removes the entry and returns `true` when the id is
present (so an immediate second delete of the same id returns `false`, and
other keys are untouched), and returns `false` leaving the store exactly
unchanged when the id is absent. -/
theorem delete_task_spec (m : Store) (id : String) :
    (hasKey m id = true →
      (delete_task m id).1 = true ∧
      lookupTask (delete_task m id).2 id = none ∧
      (∀ k, k ≠ id → lookupTask (delete_task m id).2 k = lookupTask m k) ∧
      (delete_task (delete_task m id).2 id).1 = false) ∧
    (hasKey m id = false → delete_task m id = (false, m)) := by
  constructor
  · intro h
    have hm : (delete_task m id).2 = eraseKey m id := by
      simp [delete_task, h]
    have hnone : lookupTask (eraseKey m id) id = none :=
      lookupTask_eraseKey_self m id
    refine ⟨by simp [delete_task, h], by rw [hm]; exact hnone, ?_, ?_⟩
    · intro k hk
      rw [hm]
      exact lookupTask_eraseKey_ne m id k hk
    · rw [hm]
      simp [delete_task, hasKey, hnone]
  · intro h
    simp [delete_task, h]

theorem delete_task_spec_witness :
    (delete_task [("a", taskJan)] "a").1 = true ∧
    (delete_task (delete_task [("a", taskJan)] "a").2 "a").1 = false ∧
    delete_task [] "a" = (false, []) :=
  ⟨((delete_task_spec [("a", taskJan)] "a").1 (by decide)).1,
   ((delete_task_spec [("a", taskJan)] "a").1 (by decide)).2.2.2,
   (delete_task_spec [] "a").2 (by decide)⟩

/-- C9: with a title satisfying the declared `min_length=1` constraint,
construction fails with an error identifying the priority-range rule for
every integer priority outside [1,5] and succeeds for every priority in
[1,5]; moreover every successfully constructed `Task` (under any inputs)
has its priority in [1,5]. -/
theorem task_priority_range_spec (id title : String) (d : Option String)
    (due : Nat) (pr : Int) (c : Bool) :
    (1 ≤ title.length → pr < 1 ∨ 5 < pr →
      ∃ e, Task.validate id title d due pr c = Except.error [e] ∧
        e.isPriorityError = true) ∧
    (1 ≤ title.length → 1 ≤ pr → pr ≤ 5 →
      Task.validate id title d due pr c =
        Except.ok ⟨id, title, d, due, pr, c⟩) ∧
    (∀ t, Task.validate id title d due pr c = Except.ok t →
      1 ≤ t.priority ∧ t.priority ≤ 5) := by
  refine ⟨?_, ?_, ?_⟩
  · intro ht hpr
    have h1 : ¬ title.length < 1 := by omega
    rcases hpr with hlt | hgt
    · have h3 : ¬ (5 : Int) < pr := by omega
      exact ⟨.priorityBelowOne, by simp [Task.validate, h1, hlt, h3], rfl⟩
    · have h2 : ¬ pr < 1 := by omega
      exact ⟨.priorityAboveFive, by simp [Task.validate, h1, h2, hgt], rfl⟩
  · intro ht h2 h3
    have h1 : ¬ title.length < 1 := by omega
    have h2' : ¬ pr < 1 := by omega
    have h3' : ¬ (5 : Int) < pr := by omega
    simp [Task.validate, h1, h2', h3']
  · intro t hok
    by_cases h1 : title.length < 1 <;> by_cases h2 : pr < 1 <;>
      by_cases h3 : (5 : Int) < pr <;>
      simp [Task.validate, h1, h2, h3] at hok
    subst hok
    exact show (1 : Int) ≤ pr ∧ pr ≤ 5 by omega

theorem task_priority_range_spec_witness :
    (∃ e, Task.validate "x" "t" none 100 0 false = Except.error [e] ∧
      e.isPriorityError = true) ∧
    (∃ e, Task.validate "x" "t" none 100 6 false = Except.error [e] ∧
      e.isPriorityError = true) ∧
    Task.validate "x" "t" none 100 3 false =
      Except.ok ⟨"x", "t", none, 100, 3, false⟩ :=
  ⟨(task_priority_range_spec "x" "t" none 100 0 false).1 (by decide)
      (Or.inl (by decide)),
   (task_priority_range_spec "x" "t" none 100 6 false).1 (by decide)
      (Or.inr (by decide)),
   (task_priority_range_spec "x" "t" none 100 3 false).2.1 (by decide)
      (by decide) (by decide)⟩

/-- C10: when the store holds `t` under `id`, `mark_task_complete id`
changes only the `completed` field of that entry — its `id`, `title`,
`description`, `due_date` and `priority` are unchanged — and every other
key's entry is exactly as before. -/
theorem mark_task_complete_frame (m : Store) (id : String) (t : Task)
    (h : lookupTask m id = some t) :
    ∃ t2, lookupTask (mark_task_complete m id).2 id = some t2 ∧
      t2.id = t.id ∧ t2.title = t.title ∧
      t2.description = t.description ∧ t2.due_date = t.due_date ∧
      t2.priority = t.priority ∧ t2.completed = true ∧
      (∀ k, k ≠ id →
        lookupTask (mark_task_complete m id).2 k = lookupTask m k) := by
  have hk : hasKey m id = true := by simp [hasKey, h]
  have hm : (mark_task_complete m id).2 = markKey m id := by
    simp [mark_task_complete, hk]
  refine ⟨{ t with completed := true }, ?_, rfl, rfl, rfl, rfl, rfl, rfl, ?_⟩
  · rw [hm, lookupTask_markKey_self, h]
    rfl
  · intro k hk2
    rw [hm]
    exact lookupTask_markKey_ne m id k hk2

theorem mark_task_complete_frame_witness :
    ∃ t2, lookupTask (mark_task_complete [("a", taskJan)] "a").2 "a" =
        some t2 ∧
      t2.title = taskJan.title ∧ t2.completed = true := by
  obtain ⟨t2, h1, _, h3, _, _, _, h7, _⟩ :=
    mark_task_complete_frame [("a", taskJan)] "a" taskJan (by decide)
  exact ⟨t2, h1, h3, h7⟩

end TaskApp
